import Mathlib

/-!
Shallow embedding of the `scm-chaincode` Hyperledger Fabric chaincode
(`scm-chaincode.go`, the authentication helper file and the data-model file).

Modelling conventions:
* Ledger state (`shim.ChaincodeStubInterface`) is a key-addressed map from
  `String` keys to `ProductOrder` records; the JSON marshal/unmarshal
  round-trip is modelled as the identity, so records are stored structurally.
* `stub.PutState` is modelled as always succeeding (the post-put error branch
  of the Go code is unreachable in the model).
* `time.Time` values are modelled as `Nat`, with `0` standing for the Go zero
  value; `time.Now()` is passed in as an explicit `now` parameter.
* `uuid.UUID` (from github.com/google/uuid, an external dependency) is
  modelled as its lower-case canonical string; `uuid.Parse` is modelled on
  the canonical 36-character form (the only form this deployment exercises),
  and `uuid.New()` is passed in as an explicit fresh-identifier parameter.
* The caller-identity primitives `cid.GetMSPID` and `cid.GetX509Certificate`
  (external collaborators) are modelled as `Except`-valued fields of the
  stub; the certificate lookup is represented by its issuer common name.
* Error responses (`shim.Error` / `errors.New`) are modelled by the `CCErr`
  enumeration, one constructor per distinct error message shape in the Go
  sources (the literal message text is not modelled, only its shape and its
  parameters).
-/

/-- Part order record (`ProductPartOrder` in the Go data model). -/
structure ProductPartOrder where
  orderId : String
  productPartId : String
  orderedTimestamp : Nat
  deliveredTimestamp : Nat
  state : String
deriving DecidableEq

/-- Root order record (`ProductOrder` in the Go data model).  Fields omitted
from a Go struct literal default to their zero values: `0` for timestamps and
`none` for the `mspIdOfRejecter` pointer. -/
structure ProductOrder where
  orderId : String
  productId : String
  productPartsTotalCount : Nat
  productPartOrders : List ProductPartOrder
  orderedTimestamp : Nat
  manufacturedTimestamp : Nat
  deliveredTimestamp : Nat
  state : String
  mspIdOfRejecter : Option String
deriving DecidableEq

/-- The single valid catalog product id (`ProductId` constant). -/
def ProductId : String := "97fac27b-c25c-4e4e-951e-e22d216ef1e7"

/-- `ProductPartsTotalCount` constant. -/
def ProductPartsTotalCount : Nat := 2

/-- The fixed whitelist of valid part ids (`ProductPartIds`). -/
def ProductPartIds : List String :=
  ["bdc24678-9e47-48b7-934c-d1620cb2f757", "db419975-8ae0-4e0a-b4ce-0dfd239065d3"]

/-- `VALID_PRODUCT_ORDER_STATES` from the Go data model. -/
def VALID_PRODUCT_ORDER_STATES : List String :=
  ["ORDERED", "ACCEPTED", "MANUFACTURED", "DELIVERED", "REJECTED"]

/-- `VALID_PRODUCT_PART_ORDER_STATES` from the Go data model. -/
def VALID_PRODUCT_PART_ORDER_STATES : List String :=
  ["ORDERED", "DELIVERED"]

/-- `ProductOrderState` enumeration. -/
inductive ProductOrderState where
  | ORDERED
  | ACCEPTED
  | MANUFACTURED
  | DELIVERED
  | REJECTED
deriving DecidableEq

/-- The Go `String()` method of `ProductOrderState` (indexes
`VALID_PRODUCT_ORDER_STATES`). -/
def ProductOrderState.str : ProductOrderState → String
  | .ORDERED => "ORDERED"
  | .ACCEPTED => "ACCEPTED"
  | .MANUFACTURED => "MANUFACTURED"
  | .DELIVERED => "DELIVERED"
  | .REJECTED => "REJECTED"

/-- `ProductPartOrderState` enumeration. -/
inductive ProductPartOrderState where
  | PART_ORDERED
  | PART_DELIVERED
deriving DecidableEq

/-- The Go `String()` method of `ProductPartOrderState` (indexes
`VALID_PRODUCT_PART_ORDER_STATES`). -/
def ProductPartOrderState.str : ProductPartOrderState → String
  | .PART_ORDERED => "ORDERED"
  | .PART_DELIVERED => "DELIVERED"

/-- `productOrderStateIsInvalid`: membership loop over the valid-state list. -/
def productOrderStateIsInvalid (code : String) : Bool :=
  !(VALID_PRODUCT_ORDER_STATES.any fun validCode => validCode == code)

/-- `productPartOrderStateIsInvalid`: membership loop over the valid part
state list. -/
def productPartOrderStateIsInvalid (code : String) : Bool :=
  !(VALID_PRODUCT_PART_ORDER_STATES.any fun validCode => validCode == code)

/-- Hex-digit test for the canonical UUID form (models the hex table of the
external github.com/google/uuid library). -/
def isHexDigit (c : Char) : Bool :=
  (('0' ≤ c) && (c ≤ '9')) || (('a' ≤ c) && (c ≤ 'f')) || (('A' ≤ c) && (c ≤ 'F'))

/-- Character admissible at position `i` of a canonical UUID string. -/
def uuidCharOk (i : Nat) (c : Char) : Bool :=
  if i = 8 || i = 13 || i = 18 || i = 23 then c == '-' else isHexDigit c

/-- Lower-cases the six upper-case hex digits, leaving every other character
unchanged (the only case folding a canonical UUID string needs). -/
def hexToLower (c : Char) : Char :=
  if c = 'A' then 'a' else if c = 'B' then 'b' else if c = 'C' then 'c'
  else if c = 'D' then 'd' else if c = 'E' then 'e' else if c = 'F' then 'f'
  else c

/-- Models `uuid.Parse` (external github.com/google/uuid) on the canonical
36-character form.  On success the UUID is represented by its lower-case
canonical string, exactly as `uuid.UUID.String` renders it, so parsed values
compare like Go UUID values. -/
def uuidParse (s : String) : Option String :=
  let cs := s.toList
  if cs.length == 36 && (List.range 36).all (fun i =>
      match cs.get? i with
      | some c => uuidCharOk i c
      | none => false)
  then some (String.mk (cs.map hexToLower)) else none

/-- `isProductPartIdValid`: whitelist membership loop. -/
def isProductPartIdValid (id : String) : Bool :=
  ProductPartIds.any fun validProductPartId => id == validProductPartId

/-- Ledger state: a key-addressed map from keys to `ProductOrder` records. -/
abbrev Store := String → Option ProductOrder

/-- The empty ledger. -/
def emptyStore : Store := fun _ => none

/-- Models `stub.PutState` (the single persisting ledger write). -/
def putState (s : Store) (key : String) (v : ProductOrder) : Store :=
  fun q => if q = key then some v else s q

/-- The modelled chaincode stub: the ledger state plus the two caller-identity
lookups (`cid.GetMSPID` and the issuer common name obtained through
`cid.GetX509Certificate`), which are deterministic within one transaction. -/
structure Stub where
  store : Store
  mspidRes : Except String String
  certIssuerCNRes : Except String String

/-- Error categories, one constructor per distinct `shim.Error` /
`errors.New` message shape in the Go sources. -/
inductive CCErr where
  | authFailed (expectedMspID actualMspID : String)
  | argCountMismatch
  | invalidProductId (id : String)
  | invalidOrderId (id : String)
  | invalidPartId (id : String)
  | orderNotFound (id : String)
  | orderNotFoundPlain
  | allPartsOrdered
  | partAlreadyOrdered
  | invalidOrderState (s : String)
  | unknownOrderStateAuth (s : String)
  | rejectAuthFailed
  | invalidPartOrderId (id : String)
  | invalidPartState (s : String)
  | unknownPartStateAuth (s : String)
  | partOrderNotFound (id : String)
deriving DecidableEq

instance {ε α : Type} [DecidableEq ε] [DecidableEq α] : DecidableEq (Except ε α) :=
  fun x y =>
    match x, y with
    | Except.ok a, Except.ok b =>
      if h : a = b then isTrue (congrArg Except.ok h)
      else isFalse (fun hh => h (Except.ok.inj hh))
    | Except.ok _, Except.error _ => isFalse (fun hh => Except.noConfusion hh)
    | Except.error _, Except.ok _ => isFalse (fun hh => Except.noConfusion hh)
    | Except.error e, Except.error f =>
      if h : e = f then isTrue (congrArg Except.error h)
      else isFalse (fun hh => h (Except.error.inj hh))

/-- Models `getCreatorInfo`: sequences the MSP-id lookup and the certificate
lookup, propagating the first failure to its own caller. -/
def getCreatorInfo (mspidRes certIssuerCNRes : Except String String) :
    Except String (String × String) :=
  match mspidRes with
  | Except.error e => Except.error e
  | Except.ok mspid =>
    match certIssuerCNRes with
    | Except.error e => Except.error e
    | Except.ok cn => Except.ok (mspid, cn)

/-- Models `createAuthenticationFailedError`. -/
def createAuthenticationFailedError (expectedMspID actualMspID : String) : CCErr :=
  CCErr.authFailed expectedMspID actualMspID

/-- Models `authenticateSupplier`.  The Go code discards the error component
of `getCreatorInfo` with a blank identifier, leaving the zero values for the
identity pair; the `.error` fallback to `("", "")` reflects that. -/
def authenticateSupplier (stub : Stub) : Option CCErr :=
  let p :=
    match getCreatorInfo stub.mspidRes stub.certIssuerCNRes with
    | Except.ok p => p
    | Except.error _ => ("", "")
  if p.1 = "SupplierMSP" ∧ p.2 = "ca.supplier.scmn.com" then none
  else some (createAuthenticationFailedError "SupplierMSP" p.1)

/-- Models `authenticateProducer` (same discarding of the lookup error). -/
def authenticateProducer (stub : Stub) : Option CCErr :=
  let p :=
    match getCreatorInfo stub.mspidRes stub.certIssuerCNRes with
    | Except.ok p => p
    | Except.error _ => ("", "")
  if p.1 = "ProducerMSP" ∧ p.2 = "ca.producer.scmn.com" then none
  else some (createAuthenticationFailedError "ProducerMSP" p.1)

/-- Models `authenticateDistributor` (same discarding of the lookup error). -/
def authenticateDistributor (stub : Stub) : Option CCErr :=
  let p :=
    match getCreatorInfo stub.mspidRes stub.certIssuerCNRes with
    | Except.ok p => p
    | Except.error _ => ("", "")
  if p.1 = "DistributorMSP" ∧ p.2 = "ca.distributor.scmn.com" then none
  else some (createAuthenticationFailedError "DistributorMSP" p.1)

/-- Models `authenticateCustomer` (same discarding of the lookup error). -/
def authenticateCustomer (stub : Stub) : Option CCErr :=
  let p :=
    match getCreatorInfo stub.mspidRes stub.certIssuerCNRes with
    | Except.ok p => p
    | Except.error _ => ("", "")
  if p.1 = "CustomerMSP" ∧ p.2 = "ca.customer.scmn.com" then none
  else some (createAuthenticationFailedError "CustomerMSP" p.1)

/-- Models `placeProductOrder`.  `freshOrderId` stands for `uuid.New()` and
`now` for `time.Now()`; the success response is `shim.Success(nil)`, i.e. an
empty payload. -/
def placeProductOrder (stub : Stub) (freshOrderId : String) (now : Nat)
    (args : List String) : Except CCErr (Option String) × Stub :=
  match authenticateCustomer stub with
  | some e => (Except.error e, stub)
  | none =>
    match args with
    | [arg0] =>
      match uuidParse arg0 with
      | none => (Except.error (CCErr.invalidProductId arg0), stub)
      | some productId =>
        if productId ≠ ProductId then
          (Except.error (CCErr.invalidProductId productId), stub)
        else
          let product : ProductOrder :=
            { orderId := freshOrderId
              productId := productId
              productPartsTotalCount := ProductPartsTotalCount
              productPartOrders := []
              orderedTimestamp := now
              manufacturedTimestamp := 0
              deliveredTimestamp := 0
              state := ProductOrderState.ORDERED.str
              mspIdOfRejecter := none }
          (Except.ok none,
           { stub with store := putState stub.store freshOrderId product })
    | _ => (Except.error CCErr.argCountMismatch, stub)

/-- Models `orderProductPart`.  `freshPartOrderId` stands for `uuid.New()`
and `now` for `time.Now()`. -/
def orderProductPart (stub : Stub) (freshPartOrderId : String) (now : Nat)
    (args : List String) : Except CCErr (Option String) × Stub :=
  match authenticateProducer stub with
  | some e => (Except.error e, stub)
  | none =>
    match args with
    | [arg0, arg1] =>
      match uuidParse arg0 with
      | none => (Except.error (CCErr.invalidOrderId arg0), stub)
      | some productOrderId =>
        match uuidParse arg1 with
        | none => (Except.error (CCErr.invalidPartId arg1), stub)
        | some productPartId =>
          if !isProductPartIdValid productPartId then
            (Except.error (CCErr.invalidPartId productPartId), stub)
          else
            match stub.store productOrderId with
            | none => (Except.error (CCErr.orderNotFound productOrderId), stub)
            | some productOrder =>
              if productOrder.productPartOrders.length ≥ productOrder.productPartsTotalCount then
                (Except.error CCErr.allPartsOrdered, stub)
              else if productOrder.productPartOrders.any
                  (fun part => productPartId == part.productPartId) then
                (Except.error CCErr.partAlreadyOrdered, stub)
              else
                let productPart : ProductPartOrder :=
                  { orderId := freshPartOrderId
                    productPartId := productPartId
                    orderedTimestamp := now
                    deliveredTimestamp := 0
                    state := ProductPartOrderState.PART_ORDERED.str }
                let productOrder2 :=
                  { productOrder with
                      productPartOrders := productOrder.productPartOrders ++ [productPart] }
                (Except.ok none,
                 { stub with store := putState stub.store productOrderId productOrder2 })
    | _ => (Except.error CCErr.argCountMismatch, stub)

/-- The record update performed by `changeProductOrderState` once validation
and authentication have passed (source lines 208-214): overwrite `state`,
stamp `deliveredTimestamp` on a DELIVERED transition, and set
`mspIdOfRejecter` whenever the third argument is non-empty. -/
def orderAfterChange (productOrder : ProductOrder)
    (newProductOrderState mspIdOfRejecter : String) (now : Nat) : ProductOrder :=
  let po1 := { productOrder with state := newProductOrderState }
  let po2 :=
    if newProductOrderState = ProductOrderState.DELIVERED.str then
      { po1 with deliveredTimestamp := now }
    else po1
  if mspIdOfRejecter.length > 0 then
    { po2 with mspIdOfRejecter := some mspIdOfRejecter }
  else po2

/-- The loop over `{authenticateProducer, authenticateSupplier,
authenticateDistributor}` used for a REJECTED transition (source lines
176-191): try each in order, stop at the first success, and collapse a
three-way failure into the single generic REJECTED authentication error. -/
def rejectedAuth (stub : Stub) : Option CCErr :=
  match authenticateProducer stub with
  | none => none
  | some _ =>
    match authenticateSupplier stub with
    | none => none
    | some _ =>
      match authenticateDistributor stub with
      | none => none
      | some _ => some CCErr.rejectAuthFailed

/-- The role-dispatch chain of `changeProductOrderState` (source lines
169-194): Producer for ACCEPTED and MANUFACTURED, Distributor for DELIVERED,
the three-way loop for REJECTED, and the unknown-mapping error otherwise. -/
def orderStateAuth (stub : Stub) (newProductOrderState : String) : Option CCErr :=
  if newProductOrderState = ProductOrderState.ACCEPTED.str ∨
      newProductOrderState = ProductOrderState.MANUFACTURED.str then
    authenticateProducer stub
  else if newProductOrderState = ProductOrderState.DELIVERED.str then
    authenticateDistributor stub
  else if newProductOrderState = ProductOrderState.REJECTED.str then
    rejectedAuth stub
  else
    some (CCErr.unknownOrderStateAuth newProductOrderState)

/-- Models `changeProductOrderState`.  Note that the order key is the raw
first argument (no UUID parse happens in this handler). -/
def changeProductOrderState (stub : Stub) (now : Nat) (args : List String) :
    Except CCErr (Option String) × Stub :=
  match args with
  | [orderId, newProductOrderState, mspIdOfRejecter] =>
    if productOrderStateIsInvalid newProductOrderState then
      (Except.error (CCErr.invalidOrderState newProductOrderState), stub)
    else
      match orderStateAuth stub newProductOrderState with
      | some e => (Except.error e, stub)
      | none =>
        match stub.store orderId with
        | none => (Except.error CCErr.orderNotFoundPlain, stub)
        | some productOrder =>
          (Except.ok none,
           { stub with
               store := putState stub.store orderId
                 (orderAfterChange productOrder newProductOrderState mspIdOfRejecter now) })
  | _ => (Except.error CCErr.argCountMismatch, stub)

/-- The in-place mutation applied to the matched part order by
`changeProductPartOrderState` (source lines 270-273). -/
def updatePart (part : ProductPartOrder) (newState : String) (now : Nat) :
    ProductPartOrder :=
  let p1 := { part with state := newState }
  if newState = ProductPartOrderState.PART_DELIVERED.str then
    { p1 with deliveredTimestamp := now }
  else p1

/-- Models the indexed search-and-mutate loop of `changeProductPartOrderState`
(source lines 267-276): update the first part order whose `orderId` matches,
leaving every other element in place; `none` when no part matches. -/
def updateFirstPart (parts : List ProductPartOrder)
    (productPartOrderId newState : String) (now : Nat) :
    Option (List ProductPartOrder) :=
  match parts with
  | [] => none
  | part :: rest =>
    if part.orderId = productPartOrderId then
      some (updatePart part newState now :: rest)
    else
      match updateFirstPart rest productPartOrderId newState now with
      | none => none
      | some rest2 => some (part :: rest2)

/-- The role-dispatch chain of `changeProductPartOrderState` (source lines
244-252): Producer for a part ORDERED state, Supplier for a part DELIVERED
state, the unknown-mapping error otherwise. -/
def partStateAuth (stub : Stub) (newState : String) : Option CCErr :=
  if newState = ProductPartOrderState.PART_ORDERED.str then
    authenticateProducer stub
  else if newState = ProductPartOrderState.PART_DELIVERED.str then
    authenticateSupplier stub
  else
    some (CCErr.unknownPartStateAuth newState)

/-- Models `changeProductPartOrderState`.  The third argument is `newState`. -/
def changeProductPartOrderState (stub : Stub) (now : Nat) (args : List String) :
    Except CCErr (Option String) × Stub :=
  match args with
  | [arg0, arg1, arg2] =>
    match uuidParse arg0 with
    | none => (Except.error (CCErr.invalidOrderId arg0), stub)
    | some productOrderId =>
      match uuidParse arg1 with
      | none => (Except.error (CCErr.invalidPartOrderId arg1), stub)
      | some productPartOrderId =>
        if productPartOrderStateIsInvalid arg2 then
          (Except.error (CCErr.invalidPartState arg2), stub)
        else
          match partStateAuth stub arg2 with
          | some e => (Except.error e, stub)
          | none =>
            match stub.store productOrderId with
            | none => (Except.error (CCErr.orderNotFound productOrderId), stub)
            | some productOrder =>
              match updateFirstPart productOrder.productPartOrders
                  productPartOrderId arg2 now with
              | none => (Except.error (CCErr.partOrderNotFound productPartOrderId), stub)
              | some parts2 =>
                (Except.ok none,
                 { stub with
                     store := putState stub.store productOrderId
                       { productOrder with productPartOrders := parts2 } })
  | _ => (Except.error CCErr.argCountMismatch, stub)

/-! Invariants and reachability of the stored data (spec section 3). -/

/-- The data-model invariant of a stored `ProductOrder`: the part collection
never exceeds `productPartsTotalCount`, no two part orders share a
`productPartId`, and the state string is a member of the valid-state set. -/
def orderInv (o : ProductOrder) : Prop :=
  o.productPartOrders.length ≤ o.productPartsTotalCount ∧
  (o.productPartOrders.map fun q => q.productPartId).Nodup ∧
  o.state ∈ VALID_PRODUCT_ORDER_STATES

/-- Every record in the ledger satisfies the data-model invariant. -/
def storeInv (s : Store) : Prop := ∀ k o, s k = some o → orderInv o

/-- Ledger states reachable from the empty ledger through the four mutating
chaincode operations, for arbitrary caller identities, fresh identifiers,
clock values and argument lists. -/
inductive ReachableStore : Store → Prop where
  | init : ReachableStore emptyStore
  | place (s : Store) (m c : Except String String) (fid : String) (now : Nat)
      (args : List String) (h : ReachableStore s) :
      ReachableStore (placeProductOrder ⟨s, m, c⟩ fid now args).2.store
  | orderPart (s : Store) (m c : Except String String) (fid : String) (now : Nat)
      (args : List String) (h : ReachableStore s) :
      ReachableStore (orderProductPart ⟨s, m, c⟩ fid now args).2.store
  | changeOrder (s : Store) (m c : Except String String) (now : Nat)
      (args : List String) (h : ReachableStore s) :
      ReachableStore (changeProductOrderState ⟨s, m, c⟩ now args).2.store
  | changePart (s : Store) (m c : Except String String) (now : Nat)
      (args : List String) (h : ReachableStore s) :
      ReachableStore (changeProductPartOrderState ⟨s, m, c⟩ now args).2.store

/-! Concrete fixtures used by counterexamples and witnesses. -/

/-- Fixture: a stub whose caller presents the Producer credentials. -/
def producerStub (s : Store) : Stub :=
  { store := s, mspidRes := Except.ok "ProducerMSP",
    certIssuerCNRes := Except.ok "ca.producer.scmn.com" }

/-- Fixture: a stub whose caller presents the Supplier credentials. -/
def supplierStub (s : Store) : Stub :=
  { store := s, mspidRes := Except.ok "SupplierMSP",
    certIssuerCNRes := Except.ok "ca.supplier.scmn.com" }

/-- Fixture: a stub whose caller presents the Customer credentials. -/
def customerStub (s : Store) : Stub :=
  { store := s, mspidRes := Except.ok "CustomerMSP",
    certIssuerCNRes := Except.ok "ca.customer.scmn.com" }

/-- Fixture: a canonical UUID string used as a stored order key. -/
def OrderKey : String := "aaaaaaaa-aaaa-aaaa-aaaa-aaaaaaaaaaaa"

/-- Fixture: a canonical UUID string used as a part order key. -/
def PartOrderKey : String := "bbbbbbbb-bbbb-bbbb-bbbb-bbbbbbbbbbbb"

/-- Fixture: a canonical UUID string standing for a freshly generated id. -/
def FreshId : String := "cccccccc-cccc-cccc-cccc-cccccccccccc"

/-- Fixture: the first whitelisted part id. -/
def PartId0 : String := "bdc24678-9e47-48b7-934c-d1620cb2f757"

/-- Fixture: the second whitelisted part id. -/
def PartId1 : String := "db419975-8ae0-4e0a-b4ce-0dfd239065d3"

/-- Fixture: a freshly placed order stored under the plain key `ord-1`. -/
def sampleOrder : ProductOrder :=
  { orderId := "ord-1", productId := ProductId, productPartsTotalCount := 2,
    productPartOrders := [], orderedTimestamp := 3, manufacturedTimestamp := 0,
    deliveredTimestamp := 0, state := "ORDERED", mspIdOfRejecter := none }

/-- Fixture: a one-order ledger keyed by `ord-1`. -/
def sampleStore : Store := putState emptyStore "ord-1" sampleOrder

/-- Fixture: a stored part order for the first whitelisted part id. -/
def samplePart : ProductPartOrder :=
  { orderId := PartOrderKey, productPartId := PartId0,
    orderedTimestamp := 4, deliveredTimestamp := 0, state := "ORDERED" }

/-- Fixture: an order keyed by a UUID, holding one part order. -/
def uuidOrderWithPart : ProductOrder :=
  { orderId := OrderKey, productId := ProductId, productPartsTotalCount := 2,
    productPartOrders := [samplePart], orderedTimestamp := 3,
    manufacturedTimestamp := 0, deliveredTimestamp := 0, state := "ORDERED",
    mspIdOfRejecter := none }

/-- Fixture: a one-order ledger keyed by `OrderKey`. -/
def storeWithPart : Store := putState emptyStore OrderKey uuidOrderWithPart

/-- Fixture: the same one-part order already in the terminal DELIVERED state. -/
def deliveredOrderWithPart : ProductOrder :=
  { uuidOrderWithPart with state := "DELIVERED", deliveredTimestamp := 6 }

/-- Fixture: a one-order ledger whose only order is in a terminal state. -/
def storeDelivered : Store := putState emptyStore OrderKey deliveredOrderWithPart

/-! Helper lemmas about the embedded operations. -/

theorem putState_same (s : Store) (key : String) (v : ProductOrder) :
    putState s key v key = some v := by
  simp [putState]

theorem putState_other (s : Store) (key q : String) (v : ProductOrder)
    (h : q ≠ key) : putState s key v q = s q := by
  simp [putState, h]

theorem orderAfterChange_eq (o : ProductOrder) (ns rej : String) (now : Nat) :
    orderAfterChange o ns rej now =
      { o with
          state := ns
          deliveredTimestamp :=
            if ns = ProductOrderState.DELIVERED.str then now else o.deliveredTimestamp
          mspIdOfRejecter :=
            if rej.length > 0 then some rej else o.mspIdOfRejecter } := by
  unfold orderAfterChange
  by_cases h1 : ns = ProductOrderState.DELIVERED.str <;>
    by_cases h2 : rej.length > 0 <;> simp [h1, h2]

theorem updatePart_eq (p : ProductPartOrder) (ns : String) (now : Nat) :
    updatePart p ns now =
      { p with
          state := ns
          deliveredTimestamp :=
            if ns = ProductPartOrderState.PART_DELIVERED.str then now
            else p.deliveredTimestamp } := by
  unfold updatePart
  by_cases h : ns = ProductPartOrderState.PART_DELIVERED.str <;> simp [h]

theorem orderStateValid_of_not_invalid (ns : String)
    (h : productOrderStateIsInvalid ns = false) : ns ∈ VALID_PRODUCT_ORDER_STATES := by
  simp only [productOrderStateIsInvalid, Bool.not_eq_false', List.any_eq_true,
    beq_iff_eq] at h
  obtain ⟨v, hv, rfl⟩ := h
  exact hv

theorem updateFirstPart_eq_none (parts : List ProductPartOrder)
    (pid ns : String) (now : Nat) :
    updateFirstPart parts pid ns now = none ↔ ∀ q ∈ parts, q.orderId ≠ pid := by
  induction parts with
  | nil => simp [updateFirstPart]
  | cons p rest ih =>
    by_cases h : p.orderId = pid
    · simp [updateFirstPart, h]
    · cases hrec : updateFirstPart rest pid ns now with
      | none =>
        simp only [updateFirstPart, h, if_neg h, hrec, List.mem_cons]
        constructor
        · intro _ q hq
          rcases hq with hq | hq
          · subst hq; exact h
          · exact ih.mp hrec q hq
        · intro _; rfl
      | some r2 =>
        have : ¬ (∀ q ∈ rest, q.orderId ≠ pid) := by
          intro hall
          rw [← ih] at hall
          rw [hall] at hrec
          cases hrec
        simp [updateFirstPart, h, hrec, this]

theorem updateFirstPart_first_match (l1 : List ProductPartOrder)
    (p : ProductPartOrder) (l2 : List ProductPartOrder) (pid ns : String)
    (now : Nat) (hm : p.orderId = pid) (hskip : ∀ q ∈ l1, q.orderId ≠ pid) :
    updateFirstPart (l1 ++ p :: l2) pid ns now =
      some (l1 ++ updatePart p ns now :: l2) := by
  induction l1 with
  | nil => simp [updateFirstPart, hm]
  | cons q rest ih =>
    have hq : q.orderId ≠ pid := hskip q (by simp)
    have hrest : ∀ r ∈ rest, r.orderId ≠ pid := fun r hr => hskip r (by simp [hr])
    simp [updateFirstPart, hq, ih hrest]

theorem updateFirstPart_some_shape (parts : List ProductPartOrder)
    (pid ns : String) (now : Nat) (parts2 : List ProductPartOrder)
    (h : updateFirstPart parts pid ns now = some parts2) :
    parts2.length = parts.length ∧
    parts2.map (fun q => q.productPartId) = parts.map (fun q => q.productPartId) := by
  induction parts generalizing parts2 with
  | nil => simp [updateFirstPart] at h
  | cons p rest ih =>
    by_cases hp : p.orderId = pid
    · rw [updateFirstPart, if_pos hp] at h
      have hh := Option.some.inj h
      subst hh
      simp [updatePart_eq]
    · rw [updateFirstPart, if_neg hp] at h
      cases hrec : updateFirstPart rest pid ns now with
      | none => rw [hrec] at h; cases h
      | some r2 =>
        rw [hrec] at h
        have hh := Option.some.inj h
        subst hh
        obtain ⟨hl, hm⟩ := ih r2 hrec
        simp [hl, hm]

theorem rejectedAuth_none_iff (stub : Stub) :
    rejectedAuth stub = none ↔
      (authenticateProducer stub = none ∨ authenticateSupplier stub = none ∨
       authenticateDistributor stub = none) := by
  unfold rejectedAuth
  cases hp : authenticateProducer stub <;>
    cases hs : authenticateSupplier stub <;>
    cases hd : authenticateDistributor stub <;> simp

theorem rejectedAuth_all_fail (stub : Stub)
    (hp : authenticateProducer stub ≠ none)
    (hs : authenticateSupplier stub ≠ none)
    (hd : authenticateDistributor stub ≠ none) :
    rejectedAuth stub = some CCErr.rejectAuthFailed := by
  unfold rejectedAuth
  cases hpc : authenticateProducer stub with
  | none => exact absurd hpc hp
  | some a =>
    cases hsc : authenticateSupplier stub with
    | none => exact absurd hsc hs
    | some b =>
      cases hdc : authenticateDistributor stub with
      | none => exact absurd hdc hd
      | some c => rfl

theorem placeProductOrder_cases (stub : Stub) (fid : String) (now : Nat)
    (args : List String) :
    (∃ e, placeProductOrder stub fid now args = (Except.error e, stub)) ∨
    (∃ arg0, args = [arg0] ∧ uuidParse arg0 = some ProductId ∧
      placeProductOrder stub fid now args =
        (Except.ok none,
         { stub with
             store := putState stub.store fid
               { orderId := fid, productId := ProductId,
                 productPartsTotalCount := ProductPartsTotalCount,
                 productPartOrders := [], orderedTimestamp := now,
                 manufacturedTimestamp := 0, deliveredTimestamp := 0,
                 state := ProductOrderState.ORDERED.str,
                 mspIdOfRejecter := none } })) := by
  cases hauth : authenticateCustomer stub with
  | some e => exact Or.inl ⟨e, by simp only [placeProductOrder, hauth]⟩
  | none =>
    cases args with
    | nil => exact Or.inl ⟨CCErr.argCountMismatch, by simp only [placeProductOrder, hauth]⟩
    | cons a0 tail =>
      cases tail with
      | cons a1 tail2 =>
        exact Or.inl ⟨CCErr.argCountMismatch, by simp only [placeProductOrder, hauth]⟩
      | nil =>
        cases hp : uuidParse a0 with
        | none =>
          exact Or.inl ⟨CCErr.invalidProductId a0, by simp only [placeProductOrder, hauth, hp]⟩
        | some pid =>
          by_cases hpid : pid ≠ ProductId
          · exact Or.inl ⟨CCErr.invalidProductId pid,
              by simp only [placeProductOrder, hauth, hp, if_pos hpid]⟩
          · push_neg at hpid
            subst hpid
            have hne : ¬ (ProductId ≠ ProductId) := fun h => h rfl
            exact Or.inr ⟨a0, rfl, hp,
              by simp only [placeProductOrder, hauth, hp, if_neg hne]⟩

theorem orderProductPart_cases (stub : Stub) (fid : String) (now : Nat)
    (args : List String) :
    (∃ e, orderProductPart stub fid now args = (Except.error e, stub)) ∨
    (∃ a0 a1 poid ppid o, args = [a0, a1] ∧ uuidParse a0 = some poid ∧
      uuidParse a1 = some ppid ∧ isProductPartIdValid ppid = true ∧
      stub.store poid = some o ∧
      o.productPartOrders.length < o.productPartsTotalCount ∧
      o.productPartOrders.any (fun part => ppid == part.productPartId) = false ∧
      orderProductPart stub fid now args =
        (Except.ok none,
         { stub with
             store := putState stub.store poid
               { o with
                   productPartOrders := o.productPartOrders ++
                     [{ orderId := fid, productPartId := ppid,
                        orderedTimestamp := now, deliveredTimestamp := 0,
                        state := ProductPartOrderState.PART_ORDERED.str }] } })) := by
  cases hauth : authenticateProducer stub with
  | some e => exact Or.inl ⟨e, by simp only [orderProductPart, hauth]⟩
  | none =>
    cases args with
    | nil => exact Or.inl ⟨CCErr.argCountMismatch, by simp only [orderProductPart, hauth]⟩
    | cons a0 tail =>
      cases tail with
      | nil => exact Or.inl ⟨CCErr.argCountMismatch, by simp only [orderProductPart, hauth]⟩
      | cons a1 tail2 =>
        cases tail2 with
        | cons a2 tail3 =>
          exact Or.inl ⟨CCErr.argCountMismatch, by simp only [orderProductPart, hauth]⟩
        | nil =>
          cases hp0 : uuidParse a0 with
          | none =>
            exact Or.inl ⟨CCErr.invalidOrderId a0,
              by simp only [orderProductPart, hauth, hp0]⟩
          | some poid =>
            cases hp1 : uuidParse a1 with
            | none =>
              exact Or.inl ⟨CCErr.invalidPartId a1,
                by simp only [orderProductPart, hauth, hp0, hp1]⟩
            | some ppid =>
              cases hv : isProductPartIdValid ppid with
              | false =>
                exact Or.inl ⟨CCErr.invalidPartId ppid,
                  by simp only [orderProductPart, hauth, hp0, hp1, hv, Bool.not_false, if_true]⟩
              | true =>
                cases hs : stub.store poid with
                | none =>
                  exact Or.inl ⟨CCErr.orderNotFound poid,
                    by simp only [orderProductPart, hauth, hp0, hp1, hv, hs,
                      Bool.not_true, Bool.false_eq_true, if_false]⟩
                | some o =>
                  by_cases hlen : o.productPartOrders.length ≥ o.productPartsTotalCount
                  · exact Or.inl ⟨CCErr.allPartsOrdered,
                      by simp only [orderProductPart, hauth, hp0, hp1, hv, hs,
                        Bool.not_true, Bool.false_eq_true, if_false, if_pos hlen]⟩
                  · cases hany : o.productPartOrders.any
                        (fun part => ppid == part.productPartId) with
                    | true =>
                      exact Or.inl ⟨CCErr.partAlreadyOrdered,
                        by simp only [orderProductPart, hauth, hp0, hp1, hv, hs,
                          Bool.not_true, Bool.false_eq_true, if_false, if_neg hlen,
                          hany, if_true]⟩
                    | false =>
                      refine Or.inr ⟨a0, a1, poid, ppid, o, rfl, hp0, hp1, hv, hs,
                        not_le.mp hlen, hany, ?_⟩
                      simp only [orderProductPart, hauth, hp0, hp1, hv, hs,
                        Bool.not_true, Bool.false_eq_true, if_false, if_neg hlen,
                        hany]

theorem changeProductOrderState_cases (stub : Stub) (now : Nat)
    (args : List String) :
    (∃ e, changeProductOrderState stub now args = (Except.error e, stub)) ∨
    (∃ oid ns rej o, args = [oid, ns, rej] ∧
      productOrderStateIsInvalid ns = false ∧ stub.store oid = some o ∧
      changeProductOrderState stub now args =
        (Except.ok none,
         { stub with
             store := putState stub.store oid
               (orderAfterChange o ns rej now) })) := by
  cases args with
  | nil => exact Or.inl ⟨CCErr.argCountMismatch, by simp only [changeProductOrderState]⟩
  | cons oid t1 =>
    cases t1 with
    | nil => exact Or.inl ⟨CCErr.argCountMismatch, by simp only [changeProductOrderState]⟩
    | cons ns t2 =>
      cases t2 with
      | nil => exact Or.inl ⟨CCErr.argCountMismatch, by simp only [changeProductOrderState]⟩
      | cons rej t3 =>
        cases t3 with
        | cons x t4 =>
          exact Or.inl ⟨CCErr.argCountMismatch, by simp only [changeProductOrderState]⟩
        | nil =>
          cases hval : productOrderStateIsInvalid ns with
          | true =>
            exact Or.inl ⟨CCErr.invalidOrderState ns,
              by simp only [changeProductOrderState, hval, if_true]⟩
          | false =>
            cases hauth : orderStateAuth stub ns with
            | some e =>
              exact Or.inl ⟨e, by simp only [changeProductOrderState, hval,
                Bool.false_eq_true, if_false, hauth]⟩
            | none =>
              cases hs : stub.store oid with
              | none =>
                exact Or.inl ⟨CCErr.orderNotFoundPlain,
                  by simp only [changeProductOrderState, hval, Bool.false_eq_true,
                    if_false, hauth, hs]⟩
              | some o =>
                refine Or.inr ⟨oid, ns, rej, o, rfl, hval, hs, ?_⟩
                simp only [changeProductOrderState, hval, Bool.false_eq_true,
                  if_false, hauth, hs]

theorem changeProductPartOrderState_cases (stub : Stub) (now : Nat)
    (args : List String) :
    (∃ e, changeProductPartOrderState stub now args = (Except.error e, stub)) ∨
    (∃ a0 a1 ns poid ppoid o parts2, args = [a0, a1, ns] ∧
      uuidParse a0 = some poid ∧ uuidParse a1 = some ppoid ∧
      productPartOrderStateIsInvalid ns = false ∧ stub.store poid = some o ∧
      updateFirstPart o.productPartOrders ppoid ns now = some parts2 ∧
      changeProductPartOrderState stub now args =
        (Except.ok none,
         { stub with
             store := putState stub.store poid
               { o with productPartOrders := parts2 } })) := by
  cases args with
  | nil => exact Or.inl ⟨CCErr.argCountMismatch, by simp only [changeProductPartOrderState]⟩
  | cons a0 t1 =>
    cases t1 with
    | nil => exact Or.inl ⟨CCErr.argCountMismatch, by simp only [changeProductPartOrderState]⟩
    | cons a1 t2 =>
      cases t2 with
      | nil => exact Or.inl ⟨CCErr.argCountMismatch, by simp only [changeProductPartOrderState]⟩
      | cons a2 t3 =>
        cases t3 with
        | cons x t4 =>
          exact Or.inl ⟨CCErr.argCountMismatch, by simp only [changeProductPartOrderState]⟩
        | nil =>
          cases hp0 : uuidParse a0 with
          | none =>
            exact Or.inl ⟨CCErr.invalidOrderId a0,
              by simp only [changeProductPartOrderState, hp0]⟩
          | some poid =>
            cases hp1 : uuidParse a1 with
            | none =>
              exact Or.inl ⟨CCErr.invalidPartOrderId a1,
                by simp only [changeProductPartOrderState, hp0, hp1]⟩
            | some ppoid =>
              cases hval : productPartOrderStateIsInvalid a2 with
              | true =>
                exact Or.inl ⟨CCErr.invalidPartState a2,
                  by simp only [changeProductPartOrderState, hp0, hp1, hval, if_true]⟩
              | false =>
                cases hauth : partStateAuth stub a2 with
                | some e =>
                  exact Or.inl ⟨e, by simp only [changeProductPartOrderState, hp0, hp1,
                    hval, Bool.false_eq_true, if_false, hauth]⟩
                | none =>
                  cases hs : stub.store poid with
                  | none =>
                    exact Or.inl ⟨CCErr.orderNotFound poid,
                      by simp only [changeProductPartOrderState, hp0, hp1, hval,
                        Bool.false_eq_true, if_false, hauth, hs]⟩
                  | some o =>
                    cases hupd : updateFirstPart o.productPartOrders ppoid a2 now with
                    | none =>
                      exact Or.inl ⟨CCErr.partOrderNotFound ppoid,
                        by simp only [changeProductPartOrderState, hp0, hp1, hval,
                          Bool.false_eq_true, if_false, hauth, hs, hupd]⟩
                    | some parts2 =>
                      refine Or.inr ⟨a0, a1, a2, poid, ppoid, o, parts2, rfl, hp0,
                        hp1, hval, hs, hupd, ?_⟩
                      simp only [changeProductPartOrderState, hp0, hp1, hval,
                        Bool.false_eq_true, if_false, hauth, hs, hupd]

theorem orderProductPart_ok (stub : Stub) (fid : String) (now : Nat)
    (a0 a1 poid ppid : String) (o : ProductOrder)
    (hauth : authenticateProducer stub = none)
    (hp0 : uuidParse a0 = some poid) (hp1 : uuidParse a1 = some ppid)
    (hvalid : isProductPartIdValid ppid = true)
    (hs : stub.store poid = some o)
    (hroom : o.productPartOrders.length < o.productPartsTotalCount)
    (hnotin : ∀ q ∈ o.productPartOrders, ppid ≠ q.productPartId) :
    orderProductPart stub fid now [a0, a1] =
      (Except.ok none,
       { stub with
           store := putState stub.store poid
             { o with
                 productPartOrders := o.productPartOrders ++
                   [{ orderId := fid, productPartId := ppid,
                      orderedTimestamp := now, deliveredTimestamp := 0,
                      state := ProductPartOrderState.PART_ORDERED.str }] } }) := by
  have hany : o.productPartOrders.any (fun part => ppid == part.productPartId) = false := by
    simp only [List.any_eq_false, beq_iff_eq]
    exact hnotin
  have hge : ¬ o.productPartOrders.length ≥ o.productPartsTotalCount :=
    not_le.mpr hroom
  simp only [orderProductPart, hauth, hp0, hp1, hvalid, hs, hany, hge,
    Bool.not_true, Bool.false_eq_true, if_false, if_neg hge]

theorem orderProductPart_dup (stub : Stub) (fid : String) (now : Nat)
    (a0 a1 poid ppid : String) (o : ProductOrder)
    (hauth : authenticateProducer stub = none)
    (hp0 : uuidParse a0 = some poid) (hp1 : uuidParse a1 = some ppid)
    (hvalid : isProductPartIdValid ppid = true)
    (hs : stub.store poid = some o)
    (hroom : o.productPartOrders.length < o.productPartsTotalCount)
    (hin : o.productPartOrders.any (fun part => ppid == part.productPartId) = true) :
    orderProductPart stub fid now [a0, a1] =
      (Except.error CCErr.partAlreadyOrdered, stub) := by
  have hge : ¬ o.productPartOrders.length ≥ o.productPartsTotalCount :=
    not_le.mpr hroom
  simp only [orderProductPart, hauth, hp0, hp1, hvalid, hs, hin, hge,
    Bool.not_true, Bool.false_eq_true, if_false, if_neg hge, if_true]

theorem changeProductOrderState_ok (stub : Stub) (now : Nat)
    (oid ns rej : String) (o : ProductOrder)
    (hval : productOrderStateIsInvalid ns = false)
    (hauth : orderStateAuth stub ns = none)
    (hs : stub.store oid = some o) :
    changeProductOrderState stub now [oid, ns, rej] =
      (Except.ok none,
       { stub with
           store := putState stub.store oid (orderAfterChange o ns rej now) }) := by
  simp only [changeProductOrderState, hval, hauth, hs, Bool.false_eq_true, if_false]

theorem changeProductPartOrderState_run (stub : Stub) (now : Nat)
    (a0 a1 ns poid ppoid : String) (o : ProductOrder)
    (hp0 : uuidParse a0 = some poid) (hp1 : uuidParse a1 = some ppoid)
    (hval : productPartOrderStateIsInvalid ns = false)
    (hauth : partStateAuth stub ns = none)
    (hs : stub.store poid = some o) :
    changeProductPartOrderState stub now [a0, a1, ns] =
      (match updateFirstPart o.productPartOrders ppoid ns now with
       | none => (Except.error (CCErr.partOrderNotFound ppoid), stub)
       | some parts2 =>
         (Except.ok none,
          { stub with
              store := putState stub.store poid
                { o with productPartOrders := parts2 } })) := by
  simp only [changeProductPartOrderState, hp0, hp1, hval, hauth, hs,
    Bool.false_eq_true, if_false]

theorem storeInv_putState (s : Store) (key : String) (v : ProductOrder)
    (hs : storeInv s) (hv : orderInv v) : storeInv (putState s key v) := by
  intro k o h
  by_cases hk : k = key
  · subst hk
    rw [putState_same] at h
    exact (Option.some.inj h) ▸ hv
  · rw [putState_other _ _ _ _ hk] at h
    exact hs k o h

theorem placeProductOrder_preserves (stub : Stub) (fid : String) (now : Nat)
    (args : List String) (h : storeInv stub.store) :
    storeInv (placeProductOrder stub fid now args).2.store := by
  rcases placeProductOrder_cases stub fid now args with ⟨e, he⟩ | ⟨a0, hargs, hp, he⟩
  · rw [he]; exact h
  · rw [he]
    refine storeInv_putState _ _ _ h ⟨Nat.zero_le _, List.nodup_nil, ?_⟩
    simp [ProductOrderState.str, VALID_PRODUCT_ORDER_STATES]

theorem orderProductPart_preserves (stub : Stub) (fid : String) (now : Nat)
    (args : List String) (h : storeInv stub.store) :
    storeInv (orderProductPart stub fid now args).2.store := by
  rcases orderProductPart_cases stub fid now args with ⟨e, he⟩ |
    ⟨a0, a1, poid, ppid, o, hargs, hp0, hp1, hv, hs, hroom, hany, he⟩
  · rw [he]; exact h
  · rw [he]
    refine storeInv_putState _ _ _ h ?_
    obtain ⟨hlen, hnodup, hstate⟩ := h poid o hs
    refine ⟨?_, ?_, hstate⟩
    · simp only [List.length_append, List.length_singleton]
      omega
    · rw [List.map_append]
      simp only [List.map_cons, List.map_nil]
      refine List.Nodup.append hnodup (List.nodup_singleton _) ?_
      intro a ha hb
      simp only [List.mem_singleton] at hb
      subst hb
      simp only [List.any_eq_false, beq_iff_eq] at hany
      obtain ⟨q, hq, hqa⟩ := List.mem_map.mp ha
      exact hany q hq hqa.symm

theorem changeProductOrderState_preserves (stub : Stub) (now : Nat)
    (args : List String) (h : storeInv stub.store) :
    storeInv (changeProductOrderState stub now args).2.store := by
  rcases changeProductOrderState_cases stub now args with ⟨e, he⟩ |
    ⟨oid, ns, rej, o, hargs, hval, hs, he⟩
  · rw [he]; exact h
  · rw [he]
    refine storeInv_putState _ _ _ h ?_
    obtain ⟨hlen, hnodup, _⟩ := h oid o hs
    rw [orderAfterChange_eq]
    exact ⟨hlen, hnodup, orderStateValid_of_not_invalid ns hval⟩

theorem changeProductPartOrderState_preserves (stub : Stub) (now : Nat)
    (args : List String) (h : storeInv stub.store) :
    storeInv (changeProductPartOrderState stub now args).2.store := by
  rcases changeProductPartOrderState_cases stub now args with ⟨e, he⟩ |
    ⟨a0, a1, ns, poid, ppoid, o, parts2, hargs, hp0, hp1, hval, hs, hupd, he⟩
  · rw [he]; exact h
  · rw [he]
    refine storeInv_putState _ _ _ h ?_
    obtain ⟨hlen, hnodup, hstate⟩ := h poid o hs
    obtain ⟨hl, hm⟩ := updateFirstPart_some_shape _ _ _ _ _ hupd
    exact ⟨by rw [hl]; exact hlen, by rw [hm]; exact hnodup, hstate⟩

/-- C1 (counterexample): a successful `changeProductOrderState` call with
`newState = ACCEPTED` (not REJECTED) and a non-empty third argument sets the
persisted record's `mspIdOfRejecter`, which refutes the claim that the field
is unchanged for every transition other than REJECTED. -/
theorem C1_counterexample :
    (changeProductOrderState (producerStub sampleStore) 7
        ["ord-1", "ACCEPTED", "EvilMSP"]).1 = Except.ok none ∧
    ((changeProductOrderState (producerStub sampleStore) 7
        ["ord-1", "ACCEPTED", "EvilMSP"]).2.store "ord-1").map
        (fun po => po.mspIdOfRejecter) = some (some "EvilMSP") ∧
    (sampleStore "ord-1").map (fun po => po.mspIdOfRejecter) = some none := by
  decide

/-- C1 (amended): on every successful `changeProductOrderState` call, for any
`newState`, the persisted record's `mspIdOfRejecter` is set to the third
argument whenever that argument is non-empty and is left unchanged when the
argument is empty; the guard is only on the argument, not on REJECTED. -/
theorem C1_thm (stub : Stub) (now : Nat) (oid ns rej : String) (o : ProductOrder)
    (hstore : stub.store oid = some o)
    (hok : (changeProductOrderState stub now [oid, ns, rej]).1 = Except.ok none) :
    ((changeProductOrderState stub now [oid, ns, rej]).2.store oid).map
        (fun po => po.mspIdOfRejecter)
      = some (if rej.length > 0 then some rej else o.mspIdOfRejecter) := by
  rcases changeProductOrderState_cases stub now [oid, ns, rej] with ⟨e, he⟩ |
    ⟨oid2, ns2, rej2, o2, hargs, hval, hs2, he⟩
  · simp [he] at hok
  · obtain ⟨h1, h2, h3⟩ : oid = oid2 ∧ ns = ns2 ∧ rej = rej2 := by
      simpa using hargs
    subst h1; subst h2; subst h3
    rw [hstore] at hs2
    obtain rfl : o = o2 := Option.some.inj hs2
    rw [he]
    simp [putState_same, orderAfterChange_eq]

/-- C1 (witness): the amended statement evaluated on a stored order and an
ACCEPTED transition carrying the non-empty rejecter argument `EvilMSP`. -/
theorem C1_witness :
    ((changeProductOrderState (producerStub sampleStore) 7
        ["ord-1", "ACCEPTED", "EvilMSP"]).2.store "ord-1").map
        (fun po => po.mspIdOfRejecter)
      = some (if ("EvilMSP" : String).length > 0 then some "EvilMSP"
              else sampleOrder.mspIdOfRejecter) :=
  C1_thm (producerStub sampleStore) 7 "ord-1" "ACCEPTED" "EvilMSP" sampleOrder
    (by decide) (by decide)

/-- C2 (code evaluated at the failing input): a `changeProductOrderState`
call with `newState = MANUFACTURED` on a stored order succeeds and persists
the state `MANUFACTURED`, yet the persisted `manufacturedTimestamp` is still
the zero value `0` and not later than `orderedTimestamp = 3`: no code path
ever assigns `ManufacturedTimestamp`, although the data model declares the
field for exactly this transition. -/
theorem C2_thm :
    (changeProductOrderState (producerStub sampleStore) 9
        ["ord-1", "MANUFACTURED", ""]).1 = Except.ok none ∧
    ((changeProductOrderState (producerStub sampleStore) 9
        ["ord-1", "MANUFACTURED", ""]).2.store "ord-1").map
        (fun o => (o.state, o.manufacturedTimestamp, o.orderedTimestamp))
      = some ("MANUFACTURED", 0, 3) := by
  decide

/-- C3 (counterexample): a Customer-authenticated `placeProductOrder` with
the valid catalog id does create and persist an ORDERED order with an empty
part list under the fresh order id, but its success response carries an empty
payload: the allocated `orderId` is not returned to the caller, refuting the
claim that the operation returns that orderId as its result. -/
theorem C3_counterexample :
    (placeProductOrder (customerStub emptyStore) FreshId 5 [ProductId]).1
      = Except.ok none ∧
    ((placeProductOrder (customerStub emptyStore) FreshId 5 [ProductId]).2.store
        FreshId).map (fun o => (o.orderId, o.state, o.productPartOrders.length))
      = some (FreshId, "ORDERED", 0) ∧
    (placeProductOrder (customerStub emptyStore) FreshId 5 [ProductId]).1
      ≠ Except.ok (some FreshId) := by
  decide

/-- C3 (amended): every Customer-authenticated `placeProductOrder` call whose
argument parses to the single valid catalog id allocates the fresh order id,
creates and persists a ProductOrder in state ORDERED with an empty
`productPartOrders` list under that id, and returns a success response with
an empty payload (the orderId is not returned to the caller). -/
theorem C3_thm (stub : Stub) (fid : String) (now : Nat) (arg0 : String)
    (hauth : authenticateCustomer stub = none)
    (hparse : uuidParse arg0 = some ProductId) :
    placeProductOrder stub fid now [arg0] =
      (Except.ok none,
       { stub with
           store := putState stub.store fid
             { orderId := fid, productId := ProductId,
               productPartsTotalCount := ProductPartsTotalCount,
               productPartOrders := [], orderedTimestamp := now,
               manufacturedTimestamp := 0, deliveredTimestamp := 0,
               state := ProductOrderState.ORDERED.str,
               mspIdOfRejecter := none } }) := by
  have hne : ¬ (ProductId ≠ ProductId) := fun h => h rfl
  simp only [placeProductOrder, hauth, hparse, if_neg hne]

/-- C3 (witness): the amended statement evaluated for a Customer caller on
the empty ledger with the valid catalog id. -/
theorem C3_witness :
    placeProductOrder (customerStub emptyStore) FreshId 5 [ProductId] =
      (Except.ok none,
       { customerStub emptyStore with
           store := putState (customerStub emptyStore).store FreshId
             { orderId := FreshId, productId := ProductId,
               productPartsTotalCount := ProductPartsTotalCount,
               productPartOrders := [], orderedTimestamp := 5,
               manufacturedTimestamp := 0, deliveredTimestamp := 0,
               state := ProductOrderState.ORDERED.str,
               mspIdOfRejecter := none } }) :=
  C3_thm (customerStub emptyStore) FreshId 5 ProductId (by decide) (by decide)

/-- C4 (counterexample): with a producer caller, an order id that resolves to
nothing and a part id that parses but is not in the fixed whitelist,
`orderProductPart` fails with the invalid-part-id error, not with the
order-not-found error: the whitelist check precedes the order lookup,
refuting the claim that the missing order dominates for every part id. -/
theorem C4_counterexample :
    (orderProductPart (producerStub emptyStore) FreshId 1 [OrderKey, ProductId]).1
      = Except.error (CCErr.invalidPartId ProductId) ∧
    (orderProductPart (producerStub emptyStore) FreshId 1 [OrderKey, ProductId]).1
      ≠ Except.error (CCErr.orderNotFound OrderKey) := by
  decide

/-- C4 (amended): `orderProductPart` fails with the order-not-found error
whenever the order id does not resolve, provided the part id parses and is in
the fixed whitelist; when the part id is invalid the call fails with the
invalid-part-id error instead, regardless of whether the order exists. -/
theorem C4_thm (stub : Stub) (fid : String) (now : Nat) (a0 a1 poid ppid : String)
    (hauth : authenticateProducer stub = none)
    (hp0 : uuidParse a0 = some poid) (hp1 : uuidParse a1 = some ppid)
    (hvalid : isProductPartIdValid ppid = true)
    (hnone : stub.store poid = none) :
    orderProductPart stub fid now [a0, a1] =
      (Except.error (CCErr.orderNotFound poid), stub) := by
  simp only [orderProductPart, hauth, hp0, hp1, hvalid, hnone, Bool.not_true,
    Bool.false_eq_true, if_false]

/-- C4 (witness): the amended statement evaluated for a producer caller, the
empty ledger and the first whitelisted part id. -/
theorem C4_witness :
    orderProductPart (producerStub emptyStore) FreshId 1 [OrderKey, PartId0] =
      (Except.error (CCErr.orderNotFound OrderKey), producerStub emptyStore) :=
  C4_thm (producerStub emptyStore) FreshId 1 OrderKey PartId0 OrderKey PartId0
    (by decide) (by decide) (by decide) (by decide) (by decide)

/-- C5 (counterexample): in both underlying failure modes — the MSP-id
lookup failing, and the MSP-id lookup succeeding while the certificate
lookup fails — `getCreatorInfo` does propagate the failure to its own
caller, but the authenticators discard it, so the invoking operation's
caller receives an authentication-failed error with an empty actual
organization id instead of the identity failure: the failure is converted,
not propagated, refuting the claim. -/
theorem C5_counterexample :
    getCreatorInfo (Except.error "msp lookup failed")
        (Except.ok "ca.customer.scmn.com")
      = Except.error "msp lookup failed" ∧
    (placeProductOrder
        { store := emptyStore, mspidRes := Except.error "msp lookup failed",
          certIssuerCNRes := Except.ok "ca.customer.scmn.com" }
        FreshId 5 [ProductId]).1
      = Except.error (CCErr.authFailed "CustomerMSP" "") ∧
    getCreatorInfo (Except.ok "CustomerMSP") (Except.error "cert lookup failed")
      = Except.error "cert lookup failed" ∧
    (placeProductOrder
        { store := emptyStore, mspidRes := Except.ok "CustomerMSP",
          certIssuerCNRes := Except.error "cert lookup failed" }
        FreshId 5 [ProductId]).1
      = Except.error (CCErr.authFailed "CustomerMSP" "") := by
  decide

/-- C5 (amended): `getCreatorInfo` propagates each of the two underlying
failures — an organization-id lookup failure (whatever the certificate
lookup returns) and a certificate lookup failure after a successful
organization-id lookup — to its caller, but in both modes every role
authenticator discards that error with a blank identifier and reports an
authentication-failed error whose actual organization id is the empty
string; the invoking operation's caller therefore sees an authentication
failure, not the identity error. -/
theorem C5_thm (s : Store) (cert : Except String String) (e m : String) :
    getCreatorInfo (Except.error e) cert = Except.error e ∧
    getCreatorInfo (Except.ok m) (Except.error e) = Except.error e ∧
    authenticateCustomer
        { store := s, mspidRes := Except.error e, certIssuerCNRes := cert }
      = some (CCErr.authFailed "CustomerMSP" "") ∧
    authenticateCustomer
        { store := s, mspidRes := Except.ok m, certIssuerCNRes := Except.error e }
      = some (CCErr.authFailed "CustomerMSP" "") ∧
    authenticateProducer
        { store := s, mspidRes := Except.error e, certIssuerCNRes := cert }
      = some (CCErr.authFailed "ProducerMSP" "") ∧
    authenticateProducer
        { store := s, mspidRes := Except.ok m, certIssuerCNRes := Except.error e }
      = some (CCErr.authFailed "ProducerMSP" "") ∧
    authenticateSupplier
        { store := s, mspidRes := Except.error e, certIssuerCNRes := cert }
      = some (CCErr.authFailed "SupplierMSP" "") ∧
    authenticateSupplier
        { store := s, mspidRes := Except.ok m, certIssuerCNRes := Except.error e }
      = some (CCErr.authFailed "SupplierMSP" "") ∧
    authenticateDistributor
        { store := s, mspidRes := Except.error e, certIssuerCNRes := cert }
      = some (CCErr.authFailed "DistributorMSP" "") ∧
    authenticateDistributor
        { store := s, mspidRes := Except.ok m, certIssuerCNRes := Except.error e }
      = some (CCErr.authFailed "DistributorMSP" "") := by
  refine ⟨rfl, rfl, ?_, ?_, ?_, ?_, ?_, ?_, ?_, ?_⟩ <;>
    simp [authenticateCustomer, authenticateProducer, authenticateSupplier,
      authenticateDistributor, getCreatorInfo, createAuthenticationFailedError]

/-- C6: every mutating operation is atomic on failure: whenever an operation
returns an error, the returned stub (ledger included) is exactly the input
stub, so the stored record for the targeted order is unchanged; moreover a
repeated `orderProductPart` with an already-present part id fails with the
part-already-ordered error and the stored collection keeps exactly one entry
for that part id. -/
theorem C6_thm :
    (∀ stub fid now args e,
      (placeProductOrder stub fid now args).1 = Except.error e →
      (placeProductOrder stub fid now args).2 = stub) ∧
    (∀ stub fid now args e,
      (orderProductPart stub fid now args).1 = Except.error e →
      (orderProductPart stub fid now args).2 = stub) ∧
    (∀ stub now args e,
      (changeProductOrderState stub now args).1 = Except.error e →
      (changeProductOrderState stub now args).2 = stub) ∧
    (∀ stub now args e,
      (changeProductPartOrderState stub now args).1 = Except.error e →
      (changeProductPartOrderState stub now args).2 = stub) ∧
    (∀ stub fid now a0 a1 poid ppid o,
      authenticateProducer stub = none →
      uuidParse a0 = some poid → uuidParse a1 = some ppid →
      isProductPartIdValid ppid = true →
      stub.store poid = some o →
      o.productPartOrders.length < o.productPartsTotalCount →
      o.productPartOrders.countP (fun q => ppid == q.productPartId) = 1 →
      orderProductPart stub fid now [a0, a1]
          = (Except.error CCErr.partAlreadyOrdered, stub) ∧
      ((orderProductPart stub fid now [a0, a1]).2.store poid).map
          (fun o2 => o2.productPartOrders.countP (fun q => ppid == q.productPartId))
        = some 1) := by
  refine ⟨?_, ?_, ?_, ?_, ?_⟩
  · intro stub fid now args e h
    rcases placeProductOrder_cases stub fid now args with ⟨e2, he⟩ | ⟨a0, _, _, he⟩
    · rw [he]
    · rw [he] at h; simp at h
  · intro stub fid now args e h
    rcases orderProductPart_cases stub fid now args with ⟨e2, he⟩ |
      ⟨a0, a1, poid, ppid, o, _, _, _, _, _, _, _, he⟩
    · rw [he]
    · rw [he] at h; simp at h
  · intro stub now args e h
    rcases changeProductOrderState_cases stub now args with ⟨e2, he⟩ |
      ⟨oid, ns, rej, o, _, _, _, he⟩
    · rw [he]
    · rw [he] at h; simp at h
  · intro stub now args e h
    rcases changeProductPartOrderState_cases stub now args with ⟨e2, he⟩ |
      ⟨a0, a1, ns, poid, ppoid, o, parts2, _, _, _, _, _, _, he⟩
    · rw [he]
    · rw [he] at h; simp at h
  · intro stub fid now a0 a1 poid ppid o hauth hp0 hp1 hvalid hs hroom hcount
    have hpos : 0 < o.productPartOrders.countP (fun q => ppid == q.productPartId) := by
      omega
    have hany : o.productPartOrders.any (fun q => ppid == q.productPartId) = true := by
      rw [List.any_eq_true]
      exact List.countP_pos_iff.mp hpos
    have heq := orderProductPart_dup stub fid now a0 a1 poid ppid o hauth hp0 hp1
      hvalid hs hroom hany
    refine ⟨heq, ?_⟩
    rw [heq]
    simp [hs, hcount]

/-- C6 (witness): a second `orderProductPart` with the already-present first
part id fails with the part-already-ordered error, leaves the ledger
untouched and the stored collection keeps exactly one entry for the id. -/
theorem C6_witness :
    orderProductPart (producerStub storeWithPart) FreshId 9 [OrderKey, PartId0]
      = (Except.error CCErr.partAlreadyOrdered, producerStub storeWithPart) ∧
    ((orderProductPart (producerStub storeWithPart) FreshId 9
        [OrderKey, PartId0]).2.store OrderKey).map
        (fun o2 => o2.productPartOrders.countP (fun q => PartId0 == q.productPartId))
      = some 1 :=
  C6_thm.2.2.2.2 (producerStub storeWithPart) FreshId 9 OrderKey PartId0 OrderKey
    PartId0 uuidOrderWithPart (by decide) (by decide) (by decide) (by decide)
    (by decide) (by decide) (by decide)

/-- C7: the data-model invariant (part count bounded by the total, pairwise
distinct part ids, valid state string) holds for the empty ledger, is
preserved by each of the four mutating operations, and therefore holds for
every order stored in any reachable ledger state. -/
theorem C7_thm :
    storeInv emptyStore ∧
    (∀ stub fid now args, storeInv stub.store →
        storeInv (placeProductOrder stub fid now args).2.store) ∧
    (∀ stub fid now args, storeInv stub.store →
        storeInv (orderProductPart stub fid now args).2.store) ∧
    (∀ stub now args, storeInv stub.store →
        storeInv (changeProductOrderState stub now args).2.store) ∧
    (∀ stub now args, storeInv stub.store →
        storeInv (changeProductPartOrderState stub now args).2.store) ∧
    (∀ s, ReachableStore s → storeInv s) := by
  have hempty : storeInv emptyStore := by
    intro k o h
    simp [emptyStore] at h
  have hreach : ∀ s, ReachableStore s → storeInv s := by
    intro s h
    induction h with
    | init => exact hempty
    | place s m c fid now args h ih => exact placeProductOrder_preserves _ _ _ _ ih
    | orderPart s m c fid now args h ih => exact orderProductPart_preserves _ _ _ _ ih
    | changeOrder s m c now args h ih => exact changeProductOrderState_preserves _ _ _ ih
    | changePart s m c now args h ih => exact changeProductPartOrderState_preserves _ _ _ ih
  exact ⟨hempty, placeProductOrder_preserves, orderProductPart_preserves,
    changeProductOrderState_preserves, changeProductPartOrderState_preserves, hreach⟩

/-- C7 (witness): the invariant holds after a concrete `placeProductOrder`
on the empty ledger. -/
theorem C7_witness :
    storeInv (placeProductOrder (customerStub emptyStore) FreshId 5 [ProductId]).2.store :=
  C7_thm.2.1 (customerStub emptyStore) FreshId 5 [ProductId] C7_thm.1

theorem changeProductOrderState_rejected (stub : Stub) (now : Nat)
    (oid rej : String) :
    changeProductOrderState stub now [oid, ProductOrderState.REJECTED.str, rej] =
      (match rejectedAuth stub with
       | some e => (Except.error e, stub)
       | none =>
         match stub.store oid with
         | none => (Except.error CCErr.orderNotFoundPlain, stub)
         | some o =>
           (Except.ok none,
            { stub with
                store := putState stub.store oid
                  (orderAfterChange o ProductOrderState.REJECTED.str rej now) })) := by
  have hval : productOrderStateIsInvalid ProductOrderState.REJECTED.str = false := by
    decide
  have horder : orderStateAuth stub ProductOrderState.REJECTED.str = rejectedAuth stub := by
    simp [orderStateAuth, ProductOrderState.str]
  simp only [changeProductOrderState, hval, Bool.false_eq_true, if_false, horder]

/-- C8: for a REJECTED transition, the caller passes authentication exactly
when at least one of the Producer, Supplier and Distributor authenticators
accepts (tried in that order, first success wins, which for the per-call
deterministic identity is the three-way disjunction); when all three fail,
the call fails with the single parameterless generic REJECTED
authentication error that carries none of the per-role mismatch data. -/
theorem C8_thm (stub : Stub) (now : Nat) (oid rej : String) :
    ((authenticateProducer stub = none ∨ authenticateSupplier stub = none ∨
        authenticateDistributor stub = none) →
      ((changeProductOrderState stub now [oid, ProductOrderState.REJECTED.str, rej]).1
          = Except.ok none ∨
       (changeProductOrderState stub now [oid, ProductOrderState.REJECTED.str, rej]).1
          = Except.error CCErr.orderNotFoundPlain)) ∧
    ((changeProductOrderState stub now [oid, ProductOrderState.REJECTED.str, rej]).1
        = Except.error CCErr.rejectAuthFailed →
      (authenticateProducer stub ≠ none ∧ authenticateSupplier stub ≠ none ∧
       authenticateDistributor stub ≠ none)) ∧
    ((authenticateProducer stub ≠ none ∧ authenticateSupplier stub ≠ none ∧
      authenticateDistributor stub ≠ none) →
      changeProductOrderState stub now [oid, ProductOrderState.REJECTED.str, rej]
        = (Except.error CCErr.rejectAuthFailed, stub)) := by
  have hrun := changeProductOrderState_rejected stub now oid rej
  refine ⟨?_, ?_, ?_⟩
  · intro hone
    have hnone : rejectedAuth stub = none := (rejectedAuth_none_iff stub).mpr hone
    rw [hrun, hnone]
    cases hs : stub.store oid with
    | none => exact Or.inr rfl
    | some o => exact Or.inl rfl
  · intro herr
    by_contra hcon
    have hone : authenticateProducer stub = none ∨ authenticateSupplier stub = none ∨
        authenticateDistributor stub = none := by
      by_cases hp : authenticateProducer stub = none
      · exact Or.inl hp
      · by_cases hsup : authenticateSupplier stub = none
        · exact Or.inr (Or.inl hsup)
        · by_cases hd : authenticateDistributor stub = none
          · exact Or.inr (Or.inr hd)
          · exact absurd ⟨hp, hsup, hd⟩ hcon
    have hnone : rejectedAuth stub = none := (rejectedAuth_none_iff stub).mpr hone
    rw [hrun, hnone] at herr
    cases hs : stub.store oid with
    | none => rw [hs] at herr; simp at herr
    | some o => rw [hs] at herr; simp at herr
  · intro hall
    rw [hrun, rejectedAuth_all_fail stub hall.1 hall.2.1 hall.2.2]

/-- C8 (witness): a Customer caller (rejected by all three authenticators)
attempting the REJECTED transition receives the generic REJECTED
authentication error and the ledger is unchanged. -/
theorem C8_witness :
    changeProductOrderState (customerStub sampleStore) 7
        ["ord-1", ProductOrderState.REJECTED.str, "CustomerMSP"]
      = (Except.error CCErr.rejectAuthFailed, customerStub sampleStore) :=
  (C8_thm (customerStub sampleStore) 7 "ord-1" "CustomerMSP").2.2
    ⟨by decide, by decide, by decide⟩

/-- C9: a `changeProductPartOrderState` call that passes parsing, state
validation and authentication mutates exactly one nested record: if no part
order carries the requested id it fails with the part-order-not-found error
leaving the stub unchanged; if the collection splits as `l1 ++ p :: l2` with
`p` the first match, the persisted parent is the old record with only that
`p` replaced by its updated version, every other part order and every other
parent field unchanged, stored by one write under the same key. -/
theorem C9_thm (stub : Stub) (now : Nat) (a0 a1 ns poid ppoid : String)
    (o : ProductOrder)
    (hp0 : uuidParse a0 = some poid) (hp1 : uuidParse a1 = some ppoid)
    (hval : productPartOrderStateIsInvalid ns = false)
    (hauth : partStateAuth stub ns = none)
    (hstore : stub.store poid = some o) :
    ((∀ q ∈ o.productPartOrders, q.orderId ≠ ppoid) →
      changeProductPartOrderState stub now [a0, a1, ns]
        = (Except.error (CCErr.partOrderNotFound ppoid), stub)) ∧
    (∀ l1 p l2, o.productPartOrders = l1 ++ p :: l2 → p.orderId = ppoid →
      (∀ q ∈ l1, q.orderId ≠ ppoid) →
      changeProductPartOrderState stub now [a0, a1, ns]
        = (Except.ok none,
           { stub with
               store := putState stub.store poid
                 { o with productPartOrders := l1 ++ updatePart p ns now :: l2 } })) := by
  have hrun := changeProductPartOrderState_run stub now a0 a1 ns poid ppoid o
    hp0 hp1 hval hauth hstore
  constructor
  · intro hnone
    have hupd : updateFirstPart o.productPartOrders ppoid ns now = none :=
      (updateFirstPart_eq_none _ _ _ _).mpr hnone
    rw [hrun, hupd]
  · intro l1 p l2 hdec hm hskip
    have hupd : updateFirstPart o.productPartOrders ppoid ns now
        = some (l1 ++ updatePart p ns now :: l2) := by
      rw [hdec]
      exact updateFirstPart_first_match l1 p l2 ppoid ns now hm hskip
    rw [hrun, hupd]

/-- C9 (witness): a Supplier delivering the single stored part order mutates
exactly that nested record and persists the parent under the same key. -/
theorem C9_witness :
    changeProductPartOrderState (supplierStub storeWithPart) 9
        [OrderKey, PartOrderKey, "DELIVERED"]
      = (Except.ok none,
         { supplierStub storeWithPart with
             store := putState (supplierStub storeWithPart).store OrderKey
               { uuidOrderWithPart with
                   productPartOrders := [] ++ updatePart samplePart "DELIVERED" 9 :: [] } }) :=
  (C9_thm (supplierStub storeWithPart) 9 OrderKey PartOrderKey "DELIVERED" OrderKey
      PartOrderKey uuidOrderWithPart (by decide) (by decide) (by decide) (by decide)
      (by decide)).2 [] samplePart [] (by decide) (by decide) (by decide)

/-- C10: neither `orderProductPart` nor `changeProductPartOrderState` reads
the parent order's `state` field: with producer authentication, valid ids, a
not-yet-present part id and room in the collection, `orderProductPart`
appends and persists for an order in any state (the hypotheses place no
constraint on `o.state`), and an authenticated `changeProductPartOrderState`
on an existing part order succeeds likewise. -/
theorem C10_thm :
    (∀ stub fid now a0 a1 poid ppid o,
      authenticateProducer stub = none →
      uuidParse a0 = some poid → uuidParse a1 = some ppid →
      isProductPartIdValid ppid = true →
      stub.store poid = some o →
      o.productPartOrders.length < o.productPartsTotalCount →
      (∀ q ∈ o.productPartOrders, ppid ≠ q.productPartId) →
      orderProductPart stub fid now [a0, a1] =
        (Except.ok none,
         { stub with
             store := putState stub.store poid
               { o with
                   productPartOrders := o.productPartOrders ++
                     [{ orderId := fid, productPartId := ppid,
                        orderedTimestamp := now, deliveredTimestamp := 0,
                        state := ProductPartOrderState.PART_ORDERED.str }] } })) ∧
    (∀ stub now a0 a1 ns poid ppoid o l1 p l2,
      uuidParse a0 = some poid → uuidParse a1 = some ppoid →
      productPartOrderStateIsInvalid ns = false →
      partStateAuth stub ns = none →
      stub.store poid = some o →
      o.productPartOrders = l1 ++ p :: l2 → p.orderId = ppoid →
      (∀ q ∈ l1, q.orderId ≠ ppoid) →
      (changeProductPartOrderState stub now [a0, a1, ns]).1 = Except.ok none) := by
  constructor
  · intro stub fid now a0 a1 poid ppid o hauth hp0 hp1 hv hs hroom hnotin
    exact orderProductPart_ok stub fid now a0 a1 poid ppid o hauth hp0 hp1 hv hs
      hroom hnotin
  · intro stub now a0 a1 ns poid ppoid o l1 p l2 hp0 hp1 hval hauth hs hdec hm hskip
    have hrun := changeProductPartOrderState_run stub now a0 a1 ns poid ppoid o
      hp0 hp1 hval hauth hs
    have hupd : updateFirstPart o.productPartOrders ppoid ns now
        = some (l1 ++ updatePart p ns now :: l2) := by
      rw [hdec]
      exact updateFirstPart_first_match l1 p l2 ppoid ns now hm hskip
    rw [hrun, hupd]

/-- C10 (witness): on an order already in the terminal DELIVERED state, a
producer can still append the second part and a supplier can still change
the stored part order's state. -/
theorem C10_witness :
    orderProductPart (producerStub storeDelivered) FreshId 9 [OrderKey, PartId1] =
      (Except.ok none,
       { producerStub storeDelivered with
           store := putState (producerStub storeDelivered).store OrderKey
             { deliveredOrderWithPart with
                 productPartOrders := deliveredOrderWithPart.productPartOrders ++
                   [{ orderId := FreshId, productPartId := PartId1,
                      orderedTimestamp := 9, deliveredTimestamp := 0,
                      state := ProductPartOrderState.PART_ORDERED.str }] } }) ∧
    (changeProductPartOrderState (supplierStub storeDelivered) 9
        [OrderKey, PartOrderKey, "DELIVERED"]).1 = Except.ok none := by
  constructor
  · exact C10_thm.1 (producerStub storeDelivered) FreshId 9 OrderKey PartId1 OrderKey
      PartId1 deliveredOrderWithPart (by decide) (by decide) (by decide) (by decide)
      (by decide) (by decide) (by decide)
  · exact C10_thm.2 (supplierStub storeDelivered) 9 OrderKey PartOrderKey "DELIVERED"
      OrderKey PartOrderKey deliveredOrderWithPart [] samplePart [] (by decide)
      (by decide) (by decide) (by decide) (by decide) (by decide) (by decide)
      (by decide)
